import Mathlib

/-!
Verification development for the pending-receivables view
(src/src/components/receivables-management.tsx).

The component is shallowly embedded: the React state hooks become a
record `ComponentState`; each event handler becomes a pure function from
the state (and the results of the external data-access calls, passed as
function arguments) to the new state together with a description of the
visible effects (the paginated request issued, the file saved, the toast
shown).  JavaScript numbers are modelled as rationals; the library
formatter `Number.prototype.toFixed(2)` is modelled as `toFixed2`.
-/

namespace Receivables

/-- The display entity fetched from the data layer (`CustomerWithDue` in
the source): identifier, display name, phone number, outstanding balance. -/
structure CustomerWithDue where
  id : String
  name : String
  phone : String
  dueBalance : ℚ
deriving Repr, DecidableEq

/-- The cursor object built in `handleLoadMore`: the id and due balance of
the last loaded customer. -/
structure LastVisible where
  id : String
  dueBalance : ℚ
deriving Repr, DecidableEq

/-- The argument record of `getCustomersWithDueBalancePaginated`. -/
structure PaginatedRequest where
  userId : String
  pageLimit : Nat
  lastVisible : Option LastVisible
deriving Repr, DecidableEq

/-- The result record of `getCustomersWithDueBalancePaginated`. -/
structure PaginatedResult where
  customersWithDue : List CustomerWithDue
  hasMore : Bool
deriving Repr, DecidableEq

/-- The four `React.useState` hooks of `ReceivablesManagement`. -/
structure ComponentState where
  customers : List CustomerWithDue
  hasMore : Bool
  isInitialLoading : Bool
  isLoadingMore : Bool
deriving Repr, DecidableEq

/-- The initial values of the four state hooks:
`useState([])`, `useState(true)`, `useState(true)`, `useState(false)`. -/
def initialState : ComponentState :=
  { customers := [], hasMore := true, isInitialLoading := true, isLoadingMore := false }

/-- Model of `Number.prototype.toFixed(2)` on a rational balance: round to
the nearest hundredth (half away from zero is approximated by half up) and
print sign, integer part, a dot, and exactly two fractional digits. -/
def toFixed2 (q : ℚ) : String :=
  let n : Int := round (q * 100)
  let sign : String := if n < 0 then "-" else ""
  let m : Nat := n.natAbs
  (sign ++ toString (m / 100)) ++ "." ++ String.mk [Nat.digitChar (m % 100 / 10), Nat.digitChar (m % 10)]

/-! ## Initial load (`loadInitialData` and the mount effect) -/

/-- The request issued by `loadInitialData`:
`getCustomersWithDueBalancePaginated({ userId, pageLimit: 5 })`. -/
def loadInitialRequest (userId : String) : PaginatedRequest :=
  { userId := userId, pageLimit := 5, lastVisible := none }

/-- `setIsInitialLoading(true)` at the start of `loadInitialData`: the state
while the initial fetch is pending. -/
def loadInitialBegin (s : ComponentState) : ComponentState :=
  { s with isInitialLoading := true }

/-- The state updates after the initial fetch resolves:
`setCustomers(customersWithDue); setHasMore(hasMore); setIsInitialLoading(false)`. -/
def loadInitialComplete (res : PaginatedResult) (s : ComponentState) : ComponentState :=
  { s with customers := res.customersWithDue, hasMore := res.hasMore, isInitialLoading := false }

/-- The mount effect `if (userId) loadInitialData()`: a non-empty userId
(JavaScript truthiness of a string) triggers the initial request. -/
def mountRequest (userId : String) : Option PaginatedRequest :=
  if userId ≠ "" then some (loadInitialRequest userId) else none

/-! ## Incremental pagination (`handleLoadMore`) -/

/-- `handleLoadMore`, embedded over a deterministic model `fetch` of
`getCustomersWithDueBalancePaginated`.  Returns `none` when the source
would dereference `undefined` (reading `customers[customers.length - 1].id`
on an empty list); otherwise returns the final state together with the
request issued (`none` when the guard `!hasMore || isLoadingMore` fired
and no fetch happened). -/
def handleLoadMore (userId : String) (fetch : PaginatedRequest → PaginatedResult)
    (s : ComponentState) : Option (ComponentState × Option PaginatedRequest) :=
  if !s.hasMore || s.isLoadingMore then some (s, none)
  else
    match s.customers.getLast? with
    | none => none
    | some lastCustomer =>
        let lastVisible : LastVisible :=
          { id := lastCustomer.id, dueBalance := lastCustomer.dueBalance }
        let req : PaginatedRequest :=
          { userId := userId, pageLimit := 5, lastVisible := some lastVisible }
        let res := fetch req
        some ({ s with customers := s.customers ++ res.customersWithDue,
                       hasMore := res.hasMore,
                       isLoadingMore := false }, some req)

/-! ## Report export (`handleDownload`) -/

/-- The fields of the authenticated user read by `handleDownload`
(`authUser` from `useAuth`); each may be absent or empty. -/
structure AuthUser where
  companyName : Option String
  address : Option String
  phone : Option String
  bkashNumber : Option String
  bankInfo : Option String
deriving Repr, DecidableEq

/-- JavaScript `a || b` on an optional string: the default is used when the
value is absent or empty (both are falsy). -/
def jsOr (a : Option String) (b : String) : String :=
  match a with
  | none => b
  | some v => if v = "" then b else v

/-- One element of the `body` array built in `handleDownload`:
`{ Customer: c.name, Phone: c.phone, 'Due Amount': ... }`. -/
structure ReportRow where
  customer : String
  phone : String
  dueAmount : String
deriving Repr, DecidableEq

/-- `Object.values` of a report row, in key insertion order. -/
def rowValues (r : ReportRow) : List String :=
  [r.customer, r.phone, r.dueAmount]

/-- The mapping applied to each customer when building `body`. -/
def toReportRow (c : CustomerWithDue) : ReportRow :=
  { customer := c.name, phone := c.phone, dueAmount := "$" ++ toFixed2 c.dueBalance }

/-- `body = allCustomersWithDue.map(...)` in `handleDownload`. -/
def reportBody (cs : List CustomerWithDue) : List ReportRow :=
  cs.map toReportRow

/-- The PDF document as `handleDownload` assembles it: the header text
draws in order, the centered title and as-of line, and the table passed to
`autoTable` (head and body as lists of cell rows). -/
structure PdfDoc where
  headerTexts : List String
  title : String
  asOf : String
  tableHead : List (List String)
  tableBody : List (List String)
deriving Repr, DecidableEq

/-- The PDF branch of `handleDownload`: company name (or the fallback
Bookstore), address, phone on the left; optional Bkash and Bank lines on
the right; the title and as-of date; `autoTable` with the fixed head row
and `body.map(row => Object.values(row))`. -/
def buildPdf (user : AuthUser) (dateString : String) (body : List ReportRow) : PdfDoc :=
  { headerTexts :=
      [jsOr user.companyName "Bookstore", jsOr user.address "", jsOr user.phone ""] ++
      (match user.bkashNumber with
       | some b => if b = "" then [] else ["Bkash: " ++ b]
       | none => []) ++
      (match user.bankInfo with
       | some b => if b = "" then [] else ["Bank: " ++ b]
       | none => [])
    title := "Pending Receivables Report"
    asOf := "As of " ++ dateString
    tableHead := [["Customer", "Phone", "Due Amount"]]
    tableBody := body.map rowValues }

/-- The header line of the CSV produced by `Papa.unparse`: the keys of the
row objects in insertion order. -/
def csvHeader : List String :=
  ["Customer", "Phone", "Due Amount"]

/-- The rows of the CSV (header first, then one row of values per record),
before serialisation. -/
def csvRows (body : List ReportRow) : List (List String) :=
  csvHeader :: body.map rowValues

/-- Modelled from the library default of `Papa.unparse`: a field is quoted
(with inner quotes doubled) when it contains the delimiter, a quote or a
line break. -/
def csvField (s : String) : String :=
  if s.any (fun c => c = ',' || c = '"' || c = '\n' || c = '\r') then
    "\"" ++ s.replace "\"" "\"\"" ++ "\""
  else s

/-- One serialised CSV line: fields joined by the default comma delimiter. -/
def csvLine (fields : List String) : String :=
  String.intercalate "," (fields.map csvField)

/-- Modelled from the library default of `Papa.unparse`: lines joined by
CRLF. -/
def unparse (body : List ReportRow) : String :=
  String.intercalate "\r\n" ((csvRows body).map csvLine)

/-- Which download button was pressed. -/
inductive FormatType where
  | pdf
  | csv
deriving Repr, DecidableEq

/-- The externally visible outcome of `handleDownload`: either the
destructive No Data toast with no file, or a saved file. -/
inductive DownloadResult where
  | noData
  | pdfSaved (doc : PdfDoc) (filename : String)
  | csvSaved (csv : String) (filename : String)
deriving Repr, DecidableEq

/-- `handleDownload`, embedded over the already-fetched result of
`getCustomersWithDueBalance(userId)` and the two date strings produced by
`format(new Date(), ...)` (`yyyy-MM-dd` and `PPP`).  The component state is
threaded through unchanged: the handler calls no state setter. -/
def handleDownload (formatType : FormatType) (allCustomersWithDue : List CustomerWithDue)
    (authUser : Option AuthUser) (reportDate dateString : String)
    (s : ComponentState) : ComponentState × DownloadResult :=
  if allCustomersWithDue.length = 0 then (s, .noData)
  else
    match authUser with
    | none => (s, .noData)
    | some user =>
        let body := reportBody allCustomersWithDue
        match formatType with
        | .pdf =>
            (s, .pdfSaved (buildPdf user dateString body)
                  ("pending-receivables-" ++ reportDate ++ ".pdf"))
        | .csv =>
            (s, .csvSaved (unparse body)
                  ("pending-receivables-" ++ reportDate ++ ".csv"))

/-! ## Rendering -/

/-- One rendered table row: the link target of the name cell, the three
cell contents. -/
structure RenderedRow where
  linkHref : String
  name : String
  phone : String
  due : String
deriving Repr, DecidableEq

/-- The rendering of one customer row: a link to `/customers/<id>` labelled
with the name, the phone, and the due balance with two decimals and a
dollar sign. -/
def renderRow (c : CustomerWithDue) : RenderedRow :=
  { linkHref := "/customers/" ++ c.id, name := c.name, phone := c.phone,
    due := "$" ++ toFixed2 c.dueBalance }

/-- What the table body shows: skeleton placeholder rows, customer rows, or
the empty notice. -/
inductive TableBodyView where
  | skeletons (n : Nat)
  | rows (rs : List RenderedRow)
  | emptyNotice
deriving Repr, DecidableEq

/-- The table body branch of the JSX: while `isInitialLoading`, the five
skeleton rows (`Array.from({ length: 5 })`); otherwise the customer rows,
or the No pending receivables notice when the list is empty. -/
def renderTableBody (s : ComponentState) : TableBodyView :=
  if s.isInitialLoading then .skeletons 5
  else if 0 < s.customers.length then .rows (s.customers.map renderRow)
  else .emptyNotice

/-! ## Theorems -/

/-- C3: when `hasMore` is false or a load-more is already in flight,
triggering load more performs no fetch and leaves the whole component
state (customer list, hasMore, both loading flags) unchanged. -/
theorem loadMore_guard_noop (userId : String) (fetch : PaginatedRequest → PaginatedResult)
    (s : ComponentState) (h : s.hasMore = false ∨ s.isLoadingMore = true) :
    handleLoadMore userId fetch s = some (s, none) := by
  unfold handleLoadMore
  rcases h with h | h <;> simp [h]

theorem loadMore_guard_noop_witness :
    (ComponentState.mk [] false false false).hasMore = false ∧
      handleLoadMore "u" (fun _ => PaginatedResult.mk [] false)
        (ComponentState.mk [] false false false) =
        some (ComponentState.mk [] false false false, none) :=
  ⟨rfl, loadMore_guard_noop "u" (fun _ => PaginatedResult.mk [] false)
    (ComponentState.mk [] false false false) (Or.inl rfl)⟩

/-- C2: when the loaded customer list is non-empty (and the guard lets the
fetch fire), load more calls the paginated fetch with a cursor whose fields
are exactly the id and due balance of the last customer in the list. -/
theorem loadMore_cursor (userId : String) (fetch : PaginatedRequest → PaginatedResult)
    (s : ComponentState) (h1 : s.hasMore = true) (h2 : s.isLoadingMore = false)
    (last : CustomerWithDue) (h3 : s.customers.getLast? = some last) :
    ∃ s2, handleLoadMore userId fetch s =
      some (s2, some (PaginatedRequest.mk userId 5
        (some (LastVisible.mk last.id last.dueBalance)))) := by
  unfold handleLoadMore
  simp [h1, h2, h3]

theorem loadMore_cursor_witness :
    ([CustomerWithDue.mk "c1" "Alice" "555" 10].getLast? = some (CustomerWithDue.mk "c1" "Alice" "555" 10)) ∧
      ∃ s2, handleLoadMore "u" (fun _ => PaginatedResult.mk [] false)
          (ComponentState.mk [CustomerWithDue.mk "c1" "Alice" "555" 10] true false false) =
        some (s2, some (PaginatedRequest.mk "u" 5 (some (LastVisible.mk "c1" 10)))) :=
  ⟨rfl, loadMore_cursor "u" (fun _ => PaginatedResult.mk [] false)
    (ComponentState.mk [CustomerWithDue.mk "c1" "Alice" "555" 10] true false false)
    rfl rfl (CustomerWithDue.mk "c1" "Alice" "555" 10) rfl⟩

/-- C4: when a load-more fetch returns a page, the resulting list is the
previous list followed by the new page, in order: nothing already loaded is
dropped, replaced or reordered. -/
theorem loadMore_append (userId : String) (fetch : PaginatedRequest → PaginatedResult)
    (s : ComponentState) (h1 : s.hasMore = true) (h2 : s.isLoadingMore = false)
    (last : CustomerWithDue) (h3 : s.customers.getLast? = some last) :
    ∃ s2 req, handleLoadMore userId fetch s = some (s2, some req) ∧
      s2.customers = s.customers ++ (fetch req).customersWithDue := by
  unfold handleLoadMore
  simp [h1, h2, h3]
  exact ⟨_, _, ⟨rfl, rfl⟩, rfl⟩

theorem loadMore_append_witness :
    ([CustomerWithDue.mk "c2" "Bob" "123" 7].getLast? = some (CustomerWithDue.mk "c2" "Bob" "123" 7)) ∧
      ∃ s2 req, handleLoadMore "u"
          (fun _ => PaginatedResult.mk [CustomerWithDue.mk "c3" "Eve" "999" 3] true)
          (ComponentState.mk [CustomerWithDue.mk "c2" "Bob" "123" 7] true false false) =
          some (s2, some req) ∧
        s2.customers = [CustomerWithDue.mk "c2" "Bob" "123" 7] ++
          ((fun (_ : PaginatedRequest) => PaginatedResult.mk [CustomerWithDue.mk "c3" "Eve" "999" 3] true) req).customersWithDue :=
  ⟨rfl, loadMore_append "u"
    (fun _ => PaginatedResult.mk [CustomerWithDue.mk "c3" "Eve" "999" 3] true)
    (ComponentState.mk [CustomerWithDue.mk "c2" "Bob" "123" 7] true false false)
    rfl rfl (CustomerWithDue.mk "c2" "Bob" "123" 7) rfl⟩

/-- C5: with the guard passed (`hasMore` true, no load in flight) the
handler is well-defined exactly when the customer list is non-empty; in
particular in the mount state (where `hasMore` already starts true and the
guard checks neither the initial-loading flag nor emptiness) it
dereferences the undefined last element. -/
theorem loadMore_needs_nonempty (userId : String) (fetch : PaginatedRequest → PaginatedResult)
    (s : ComponentState) (h1 : s.hasMore = true) (h2 : s.isLoadingMore = false) :
    ((handleLoadMore userId fetch s).isSome ↔ s.customers ≠ []) ∧
      handleLoadMore userId fetch initialState = none := by
  constructor
  · unfold handleLoadMore
    simp only [h1, h2]
    rcases h : s.customers.getLast? with _ | last
    · simp [List.getLast?_eq_none_iff.mp h]
    · have : s.customers ≠ [] := by
        intro hnil
        rw [hnil] at h
        exact Option.noConfusion h
      simp [this]
  · rfl

theorem loadMore_needs_nonempty_witness :
    (ComponentState.mk [CustomerWithDue.mk "c4" "Dan" "000" 1] true false false).hasMore = true ∧
      (((handleLoadMore "u" (fun _ => PaginatedResult.mk [] false)
          (ComponentState.mk [CustomerWithDue.mk "c4" "Dan" "000" 1] true false false)).isSome ↔
        (ComponentState.mk [CustomerWithDue.mk "c4" "Dan" "000" 1] true false false).customers ≠ []) ∧
        handleLoadMore "u" (fun _ => PaginatedResult.mk [] false) initialState = none) :=
  ⟨rfl, loadMore_needs_nonempty "u" (fun _ => PaginatedResult.mk [] false)
    (ComponentState.mk [CustomerWithDue.mk "c4" "Dan" "000" 1] true false false) rfl rfl⟩

/-- C1 counterexample: with one due-balance customer fetched but no
authenticated user, the export still shows the No Data notice and produces
no file, so the notice is not shown exactly when the fetched set is empty,
and emptiness is not the only condition it handles. -/
theorem download_noData_counterexample :
    handleDownload FormatType.csv [CustomerWithDue.mk "c1" "Alice" "555" 10] none
        "2026-10-11" "October 11th, 2026" initialState = (initialState, DownloadResult.noData) ∧
      [CustomerWithDue.mk "c1" "Alice" "555" 10] ≠ [] := by
  constructor
  · rfl
  · intro h
    exact List.noConfusion h

/-- C1 (amended): for every export request, the No Data notice is shown and
no file produced exactly when the fetched due-balance set is empty or no
authenticated user is present. -/
theorem download_noData_iff (formatType : FormatType) (cs : List CustomerWithDue)
    (authUser : Option AuthUser) (reportDate dateString : String) (s : ComponentState) :
    (handleDownload formatType cs authUser reportDate dateString s).2 = DownloadResult.noData ↔
      (cs = [] ∨ authUser = none) := by
  unfold handleDownload
  cases cs <;> cases authUser <;> cases formatType <;> simp

/-- C6 counterexample: a non-empty fetched set with no authenticated user
yields the No Data outcome, not a saved PDF or CSV, refuting the claim as
universally stated over fetched sets. -/
theorem download_artifacts_counterexample :
    (handleDownload FormatType.pdf [CustomerWithDue.mk "c2" "Bob" "123" 5] none
        "2026-10-11" "October 11th, 2026" initialState).2 = DownloadResult.noData ∧
      (0 : Nat) < [CustomerWithDue.mk "c2" "Bob" "123" 5].length := by
  exact ⟨rfl, Nat.zero_lt_one⟩

/-- C6 (amended): for every non-empty fetched set of N customers, with an
authenticated user present, the CSV export saves a file whose rows are one
header row plus N data rows, the PDF export saves a document whose table
body has exactly N rows, and each filename is
pending-receivables-(report date).(ext) built from the current-date
string. -/
theorem download_artifacts (cs : List CustomerWithDue) (h : cs ≠ [])
    (user : AuthUser) (reportDate dateString : String) (s : ComponentState) :
    handleDownload FormatType.csv cs (some user) reportDate dateString s =
      (s, DownloadResult.csvSaved (unparse (reportBody cs))
        ("pending-receivables-" ++ reportDate ++ ".csv")) ∧
    handleDownload FormatType.pdf cs (some user) reportDate dateString s =
      (s, DownloadResult.pdfSaved (buildPdf user dateString (reportBody cs))
        ("pending-receivables-" ++ reportDate ++ ".pdf")) ∧
    (csvRows (reportBody cs)).length = 1 + cs.length ∧
    (csvRows (reportBody cs)).head? = some csvHeader ∧
    (buildPdf user dateString (reportBody cs)).tableBody.length = cs.length := by
  have hlen : cs.length ≠ 0 := by
    intro h0
    exact h (List.length_eq_zero.mp h0)
  refine ⟨?_, ?_, ?_, rfl, ?_⟩
  · unfold handleDownload
    simp [hlen]
  · unfold handleDownload
    simp [hlen]
  · simp [csvRows, reportBody, Nat.add_comm]
  · simp [buildPdf, reportBody]

theorem download_artifacts_witness :
    ([CustomerWithDue.mk "c1" "Alice" "555" 10] ≠ []) ∧
      (handleDownload FormatType.csv [CustomerWithDue.mk "c1" "Alice" "555" 10]
          (some (AuthUser.mk none none none none none)) "2026-10-11" "October 11th, 2026" initialState =
        (initialState, DownloadResult.csvSaved
          (unparse (reportBody [CustomerWithDue.mk "c1" "Alice" "555" 10]))
          ("pending-receivables-" ++ "2026-10-11" ++ ".csv")) ∧
      handleDownload FormatType.pdf [CustomerWithDue.mk "c1" "Alice" "555" 10]
          (some (AuthUser.mk none none none none none)) "2026-10-11" "October 11th, 2026" initialState =
        (initialState, DownloadResult.pdfSaved
          (buildPdf (AuthUser.mk none none none none none) "October 11th, 2026"
            (reportBody [CustomerWithDue.mk "c1" "Alice" "555" 10]))
          ("pending-receivables-" ++ "2026-10-11" ++ ".pdf")) ∧
      (csvRows (reportBody [CustomerWithDue.mk "c1" "Alice" "555" 10])).length =
        1 + [CustomerWithDue.mk "c1" "Alice" "555" 10].length ∧
      (csvRows (reportBody [CustomerWithDue.mk "c1" "Alice" "555" 10])).head? = some csvHeader ∧
      (buildPdf (AuthUser.mk none none none none none) "October 11th, 2026"
        (reportBody [CustomerWithDue.mk "c1" "Alice" "555" 10])).tableBody.length =
        [CustomerWithDue.mk "c1" "Alice" "555" 10].length) :=
  ⟨by simp, download_artifacts [CustomerWithDue.mk "c1" "Alice" "555" 10] (by simp)
    (AuthUser.mk none none none none none) "2026-10-11" "October 11th, 2026" initialState⟩

/-- C9: exporting, whether it aborts with the No Data notice or saves a
file, never modifies the pagination state: the loaded customer list,
hasMore and both loading flags are unchanged. -/
theorem download_preserves_state (formatType : FormatType) (cs : List CustomerWithDue)
    (authUser : Option AuthUser) (reportDate dateString : String) (s : ComponentState) :
    (handleDownload formatType cs authUser reportDate dateString s).1 = s := by
  unfold handleDownload
  cases cs <;> cases authUser <;> cases formatType <;> simp

/-- C7: a non-empty user identifier makes the mount effect request exactly
the first page with the fixed page size 5 and no cursor, and while the
initial load is pending the table body shows exactly 5 skeleton rows. -/
theorem initial_pageSize_and_skeletons (userId : String) (h : userId ≠ "") (s : ComponentState) :
    mountRequest userId = some (PaginatedRequest.mk userId 5 none) ∧
      renderTableBody (loadInitialBegin s) = TableBodyView.skeletons 5 := by
  constructor
  · simp [mountRequest, h, loadInitialRequest]
  · simp [renderTableBody, loadInitialBegin]

theorem initial_pageSize_and_skeletons_witness :
    ("user-1" ≠ "") ∧
      (mountRequest "user-1" = some (PaginatedRequest.mk "user-1" 5 none) ∧
        renderTableBody (loadInitialBegin initialState) = TableBodyView.skeletons 5) :=
  ⟨by simp, initial_pageSize_and_skeletons "user-1" (by simp) initialState⟩

/-- C8: for every customer, the table cell and the Due Amount field of the
export rows are the dollar sign followed by the balance formatted by
`toFixed2`, and that formatted string always ends in a dot followed by
exactly two characters. -/
theorem currency_two_decimals (c : CustomerWithDue) :
    (renderRow c).due = "$" ++ toFixed2 c.dueBalance ∧
      (toReportRow c).dueAmount = "$" ++ toFixed2 c.dueBalance ∧
      ∃ intPart fracPart, toFixed2 c.dueBalance = intPart ++ "." ++ fracPart ∧
        fracPart.length = 2 := by
  refine ⟨rfl, rfl, ?_⟩
  unfold toFixed2
  exact ⟨_, _, rfl, rfl⟩

/-- C10: the PDF table body and the CSV data rows (the rows after the
header) are the same list, and both are the customers mapped to
(name, phone, dollar amount with two decimals) in order. -/
theorem pdf_csv_rows_agree (cs : List CustomerWithDue) (user : AuthUser) (dateString : String) :
    (buildPdf user dateString (reportBody cs)).tableBody = (csvRows (reportBody cs)).tail ∧
      (buildPdf user dateString (reportBody cs)).tableBody =
        cs.map (fun c => [c.name, c.phone, "$" ++ toFixed2 c.dueBalance]) := by
  constructor
  · rfl
  · simp [buildPdf, reportBody, rowValues, toReportRow, List.map_map]

end Receivables
